import Mathlib

/-!
Shallow embedding of the posture capture-and-analysis pipeline of the
`bodyos` repository, together with theorems settling the frozen claims.

Sources embedded here:

* `src/utils/postureAnalysis.ts` — the posture metric engine
  (`analyzePosture`); numbers are modelled as real numbers, JavaScript
  `Math.atan2` as a case-split over `Real.arctan`, and the JavaScript
  `TypeError` raised by reading a property of `undefined` (out-of-range
  array access) as an `Except` error.
* `src/components/posture/PostureDetection.tsx` — the frame-quality
  monitor (`frameAlertMain`), the 10-second voice throttle (`voiceRun`),
  the capture handler (`handleCapture`) and the camera constraint
  fallback (`setupCamera`).
* the part_002 variant of the detection component — its independent
  boundary counting (`frameAlertVariant`).
* the part_004 single-flight variant of the `usePoseDetection` hook —
  the detection scheduler, embedded as a step relation (`schedStep`).
-/

/-- One normalized body landmark.  `visibility` is `none` when the
detector left the field `undefined`. -/
structure Landmark where
  x : ℝ
  y : ℝ
  z : ℝ
  visibility : Option ℝ

/-- Detector output.  `poseLandmarks` is `none` when the field is
absent (`undefined`), mirroring the `!results.poseLandmarks` guard. -/
structure Results where
  poseLandmarks : Option (List Landmark)

/-- The only JavaScript fault the embedded code can raise: reading a
property of `undefined`. -/
inductive JsError
  | typeError
deriving DecidableEq

/-- Result record of the metric engine (`PostureMetrics` in the source).
The score is an integer after `Math.round`. -/
structure PostureMetrics where
  shoulderAngle : ℝ
  pelvicAngle : ℝ
  roundShoulderIndex : ℝ
  score : ℤ
  issues : List String

/-- JavaScript `Math.atan2 y x` (no signed zeros in this model). -/
noncomputable def atan2 (y x : ℝ) : ℝ :=
  if 0 < x then Real.arctan (y / x)
  else if x < 0 then
    (if 0 ≤ y then Real.arctan (y / x) + Real.pi else Real.arctan (y / x) - Real.pi)
  else if 0 < y then Real.pi / 2
  else if y < 0 then -(Real.pi / 2)
  else 0

/-- JavaScript `Math.round` (round half toward positive infinity). -/
noncomputable def jsRound (x : ℝ) : ℤ := ⌊x + 1 / 2⌋

/-- Array indexing followed by a property read: `lm[i].y` faults with a
`TypeError` when index `i` is out of range. -/
def jsGet (lm : List Landmark) (i : ℕ) : Except JsError Landmark :=
  match lm[i]? with
  | some l => Except.ok l
  | none => Except.error JsError.typeError

/-- The metric engine `analyzePosture` from `src/utils/postureAnalysis.ts`,
line for line: `null` when `poseLandmarks` is absent, otherwise shoulder
angle from landmarks 11/12, pelvic angle from 23/24, neck forwardness from
7/11, issue labels pushed in that order, and the clamped rounded score.
The source writes the pelvic issue as a conditional with identical arms
(`pelvicAngle > 0 ? "骨盆侧倾" : "骨盆侧倾"`), which collapses to the
single string. -/
noncomputable def analyzePosture (results : Results) :
    Except JsError (Option PostureMetrics) :=
  match results.poseLandmarks with
  | none => Except.ok none
  | some lm => do
    let leftShoulder ← jsGet lm 11
    let rightShoulder ← jsGet lm 12
    let shoulderAngle :=
      atan2 (leftShoulder.y - rightShoulder.y) (leftShoulder.x - rightShoulder.x) *
        (180 / Real.pi)
    let issues1 : List String :=
      if 3 < |shoulderAngle| then
        [if 0 < shoulderAngle then ("左肩偏高") else ("右肩偏高")]
      else []
    let leftHip ← jsGet lm 23
    let rightHip ← jsGet lm 24
    let pelvicAngle :=
      atan2 (leftHip.y - rightHip.y) (leftHip.x - rightHip.x) * (180 / Real.pi)
    let issues2 : List String :=
      issues1 ++ (if 3 < |pelvicAngle| then [("骨盆侧倾")] else [])
    let ear ← jsGet lm 7
    let shoulder ← jsGet lm 11
    let neckForwardness := ear.x - shoulder.x
    let issues3 : List String :=
      issues2 ++ (if 1 / 10 < neckForwardness then [("圆肩/头前引")] else [])
    let score0 : ℝ :=
      100 - |shoulderAngle| * 5 - |pelvicAngle| * 5 -
        (if 1 / 20 < neckForwardness then 20 else 0)
    let score1 : ℝ := max 0 (min 100 score0)
    Except.ok (some
      { shoulderAngle := shoulderAngle
        pelvicAngle := pelvicAngle
        roundShoulderIndex := neckForwardness
        score := jsRound score1
        issues := issues3 })

/-- Evaluation lemma: when the five landmarks the engine reads are
present, `analyzePosture` returns the metrics record computed from them. -/
theorem analyzePosture_eval (lm : List Landmark) (ls rs lh rh ear : Landmark)
    (h11 : lm[11]? = some ls) (h12 : lm[12]? = some rs)
    (h23 : lm[23]? = some lh) (h24 : lm[24]? = some rh)
    (h7 : lm[7]? = some ear) :
    analyzePosture ⟨some lm⟩ =
      Except.ok (some
        { shoulderAngle := atan2 (ls.y - rs.y) (ls.x - rs.x) * (180 / Real.pi)
          pelvicAngle := atan2 (lh.y - rh.y) (lh.x - rh.x) * (180 / Real.pi)
          roundShoulderIndex := ear.x - ls.x
          score := jsRound (max 0 (min 100
            (100 - |atan2 (ls.y - rs.y) (ls.x - rs.x) * (180 / Real.pi)| * 5 -
              |atan2 (lh.y - rh.y) (lh.x - rh.x) * (180 / Real.pi)| * 5 -
              (if 1 / 20 < ear.x - ls.x then 20 else 0))))
          issues :=
            (if 3 < |atan2 (ls.y - rs.y) (ls.x - rs.x) * (180 / Real.pi)| then
              [if 0 < atan2 (ls.y - rs.y) (ls.x - rs.x) * (180 / Real.pi) then
                ("左肩偏高") else ("右肩偏高")]
            else []) ++
            (if 3 < |atan2 (lh.y - rh.y) (lh.x - rh.x) * (180 / Real.pi)| then
              [("骨盆侧倾")] else []) ++
            (if 1 / 10 < ear.x - ls.x then [("圆肩/头前引")] else []) }) := by
  simp only [analyzePosture, jsGet, h11, h12, h23, h24, h7]
  rfl

/-- For positive `x`, `arctan x` lies strictly below `x`. -/
theorem arctan_lt_self_of_pos {x : ℝ} (hx : 0 < x) : Real.arctan x < x := by
  have h1 : 0 < Real.arctan x := by
    have h := Real.arctan_strictMono hx
    simpa using h
  have h2 := Real.lt_tan h1 (Real.arctan_lt_pi_div_two x)
  rwa [Real.tan_arctan] at h2

/-- For positive `x`, `x / √(1 + x²)` lies strictly below `arctan x`. -/
theorem div_sqrt_lt_arctan {x : ℝ} (hx : 0 < x) :
    x / Real.sqrt (1 + x ^ 2) < Real.arctan x := by
  have h1 : 0 < Real.arctan x := by
    have h := Real.arctan_strictMono hx
    simpa using h
  have h2 := Real.sin_lt h1
  rwa [Real.sin_arctan] at h2

/-- Rational bounds for `arctan (3/100)`. -/
theorem arctan_three_hundredths_bounds :
    3 / 101 < Real.arctan (3 / 100) ∧ Real.arctan (3 / 100) < 3 / 100 := by
  refine ⟨?_, arctan_lt_self_of_pos (by norm_num)⟩
  have h := div_sqrt_lt_arctan (x := 3 / 100) (by norm_num)
  have hs : Real.sqrt (1 + (3 / 100) ^ 2) < 101 / 100 := by
    rw [Real.sqrt_lt' (by norm_num)]
    norm_num
  have hpos : 0 < Real.sqrt (1 + (3 / 100) ^ 2) := Real.sqrt_pos.mpr (by norm_num)
  have hd : ((3 : ℝ) / 100) / (101 / 100) < (3 / 100) / Real.sqrt (1 + (3 / 100) ^ 2) :=
    div_lt_div_of_pos_left (by norm_num) hpos hs
  have he : ((3 : ℝ) / 101) = (3 / 100) / (101 / 100) := by norm_num
  linarith

/-- Rational bounds for `arctan (1/4)`. -/
theorem arctan_quarter_bounds :
    6 / 25 < Real.arctan (1 / 4) ∧ Real.arctan (1 / 4) < 1 / 4 := by
  refine ⟨?_, arctan_lt_self_of_pos (by norm_num)⟩
  have h := div_sqrt_lt_arctan (x := 1 / 4) (by norm_num)
  have hs : Real.sqrt (1 + (1 / 4) ^ 2) < 25 / 24 := by
    rw [Real.sqrt_lt' (by norm_num)]
    norm_num
  have hpos : 0 < Real.sqrt (1 + (1 / 4) ^ 2) := Real.sqrt_pos.mpr (by norm_num)
  have hd : ((1 : ℝ) / 4) / (25 / 24) < (1 / 4) / Real.sqrt (1 + (1 / 4) ^ 2) :=
    div_lt_div_of_pos_left (by norm_num) hpos hs
  have he : ((6 : ℝ) / 25) = (1 / 4) / (25 / 24) := by norm_num
  linarith

/-- `Math.atan2` with positive `x` is plain `arctan`. -/
theorem atan2_pos_x {y x : ℝ} (hx : 0 < x) : atan2 y x = Real.arctan (y / x) := by
  unfold atan2
  rw [if_pos hx]

/-- `Math.atan2` with negative `x` and nonnegative `y` lands in the second
quadrant. -/
theorem atan2_neg_x_nonneg_y {y x : ℝ} (hx : x < 0) (hy : 0 ≤ y) :
    atan2 y x = Real.arctan (y / x) + Real.pi := by
  unfold atan2
  rw [if_neg (by linarith), if_pos hx, if_pos hy]

/-- Benign filler landmark for list positions the engine ignores. -/
noncomputable def fillLm : Landmark := ⟨1/2, 1/2, 0, some 1⟩

/-- C1 counterexample snapshot: shoulder line tilted by `arctan (3/100)`
(≈ 1.72°, within the 3° tolerance), level hips, ear directly above the
shoulder. -/
noncomputable def c1Lm : List Landmark :=
  (((((List.replicate 25 fillLm).set 7 ⟨3/5, 3/10, 0, some 1⟩).set 11
      ⟨3/5, 503/1000, 0, some 1⟩).set 12 ⟨1/2, 1/2, 0, some 1⟩).set 23
      ⟨3/5, 4/5, 0, some 1⟩).set 24 ⟨2/5, 4/5, 0, some 1⟩

/-- Metrics the engine computes on `c1Lm`. -/
noncomputable def c1Metrics : PostureMetrics :=
  { shoulderAngle := Real.arctan (3 / 100) * (180 / Real.pi)
    pelvicAngle := 0
    roundShoulderIndex := 0
    score := jsRound (100 - Real.arctan (3 / 100) * (180 / Real.pi) * 5)
    issues := [] }

/-- The C1 shoulder angle is strictly between 0.1 and 2 degrees. -/
theorem c1_angle_bounds :
    1 / 10 < Real.arctan (3 / 100) * (180 / Real.pi) ∧
      Real.arctan (3 / 100) * (180 / Real.pi) < 2 := by
  have hb := arctan_three_hundredths_bounds
  have hpi3 := Real.pi_gt_three
  have hpi4 := Real.pi_lt_four
  have hpos := Real.pi_pos
  have hlow : (45 : ℝ) < 180 / Real.pi := by
    rw [lt_div_iff₀ hpos]
    nlinarith
  have hhigh : (180 : ℝ) / Real.pi < 60 := by
    rw [div_lt_iff₀ hpos]
    nlinarith
  have hgt0 : 0 < Real.arctan (3 / 100) := lt_trans (by norm_num) hb.1
  constructor
  · nlinarith [hb.1]
  · nlinarith [hb.2]

/-- Evaluation of the metric engine on the C1 snapshot. -/
theorem c1_eval : analyzePosture ⟨some c1Lm⟩ = Except.ok (some c1Metrics) := by
  have h := analyzePosture_eval c1Lm ⟨3/5, 503/1000, 0, some 1⟩ ⟨1/2, 1/2, 0, some 1⟩
      ⟨3/5, 4/5, 0, some 1⟩ ⟨2/5, 4/5, 0, some 1⟩ ⟨3/5, 3/10, 0, some 1⟩ rfl rfl rfl rfl rfl
  have hA : atan2 ((503 : ℝ)/1000 - 1/2) ((3 : ℝ)/5 - 1/2) = Real.arctan (3 / 100) := by
    rw [show ((503 : ℝ)/1000 - 1/2) = 3/1000 by norm_num,
        show ((3 : ℝ)/5 - 1/2) = 1/10 by norm_num, atan2_pos_x (by norm_num)]
    norm_num
  have hP : atan2 ((4 : ℝ)/5 - 4/5) ((3 : ℝ)/5 - 2/5) = 0 := by
    rw [show ((4 : ℝ)/5 - 4/5) = 0 by norm_num,
        show ((3 : ℝ)/5 - 2/5) = 1/5 by norm_num, atan2_pos_x (by norm_num)]
    norm_num
  have hang := c1_angle_bounds
  have hsapos : 0 < Real.arctan (3 / 100) * (180 / Real.pi) := lt_trans (by norm_num) hang.1
  simp only [hA, hP] at h
  rw [h]
  have hc1 : ¬ (3 < |Real.arctan (3 / 100) * (180 / Real.pi)|) := by
    rw [abs_of_pos hsapos]
    linarith [hang.2]
  have hnf : ((3 : ℝ)/5 - 3/5) = 0 := by norm_num
  simp only [hnf, zero_mul, abs_zero, sub_zero, mul_zero, abs_of_pos hsapos]
  rw [if_neg (by linarith [hang.2] : ¬ (3 < Real.arctan (3 / 100) * (180 / Real.pi))),
      if_neg (by norm_num : ¬ ((3:ℝ) < (0:ℝ))),
      if_neg (by norm_num : ¬ ((1:ℝ)/10 < (0:ℝ))),
      if_neg (by norm_num : ¬ ((1:ℝ)/20 < (0:ℝ))), sub_zero]
  rw [min_eq_right (by linarith [hang.1] :
        (100 : ℝ) - Real.arctan (3 / 100) * (180 / Real.pi) * 5 ≤ 100),
      max_eq_right (by nlinarith [hang.2] :
        (0 : ℝ) ≤ 100 - Real.arctan (3 / 100) * (180 / Real.pi) * 5)]
  simp only [c1Metrics]
  norm_num

/-- `Except` bind on a success. -/
theorem exceptBind_ok {α β ε : Type} (a : α) (f : α → Except ε β) :
    (Except.ok a >>= f) = f a := rfl

/-- `Except` bind on an error. -/
theorem exceptBind_error {α β ε : Type} (e : ε) (f : α → Except ε β) :
    ((Except.error e : Except ε α) >>= f) = Except.error e := rfl

/-- The metrics record the engine builds from the five landmarks it reads. -/
noncomputable def metricsOf (ls rs lh rh ear : Landmark) : PostureMetrics :=
  { shoulderAngle := atan2 (ls.y - rs.y) (ls.x - rs.x) * (180 / Real.pi)
    pelvicAngle := atan2 (lh.y - rh.y) (lh.x - rh.x) * (180 / Real.pi)
    roundShoulderIndex := ear.x - ls.x
    score := jsRound (max 0 (min 100
      (100 - |atan2 (ls.y - rs.y) (ls.x - rs.x) * (180 / Real.pi)| * 5 -
        |atan2 (lh.y - rh.y) (lh.x - rh.x) * (180 / Real.pi)| * 5 -
        (if 1 / 20 < ear.x - ls.x then 20 else 0))))
    issues :=
      (if 3 < |atan2 (ls.y - rs.y) (ls.x - rs.x) * (180 / Real.pi)| then
        [if 0 < atan2 (ls.y - rs.y) (ls.x - rs.x) * (180 / Real.pi) then
          ("左肩偏高") else ("右肩偏高")]
      else []) ++
      (if 3 < |atan2 (lh.y - rh.y) (lh.x - rh.x) * (180 / Real.pi)| then
        [("骨盆侧倾")] else []) ++
      (if 1 / 10 < ear.x - ls.x then [("圆肩/头前引")] else []) }

/-- Inversion: a successful non-null run of the engine exposes the five
landmarks it read and determines the metrics record. -/
theorem analyzePosture_inv (r : Results) (m : PostureMetrics)
    (hm : analyzePosture r = Except.ok (some m)) :
    ∃ lm ls rs lh rh ear, r.poseLandmarks = some lm ∧
      lm[11]? = some ls ∧ lm[12]? = some rs ∧ lm[23]? = some lh ∧
      lm[24]? = some rh ∧ lm[7]? = some ear ∧ m = metricsOf ls rs lh rh ear := by
  unfold analyzePosture jsGet at hm
  cases hr : r.poseLandmarks with
  | none =>
    simp only [hr] at hm
    exact Option.noConfusion (Except.ok.inj hm)
  | some lm =>
    simp only [hr] at hm
    cases h11 : lm[11]? with
    | none =>
      simp only [h11, exceptBind_error] at hm
      exact Except.noConfusion hm
    | some ls =>
    simp only [h11, exceptBind_ok] at hm
    cases h12 : lm[12]? with
    | none =>
      simp only [h12, exceptBind_error] at hm
      exact Except.noConfusion hm
    | some rs =>
    simp only [h12, exceptBind_ok] at hm
    cases h23 : lm[23]? with
    | none =>
      simp only [h23, exceptBind_error] at hm
      exact Except.noConfusion hm
    | some lh =>
    simp only [h23, exceptBind_ok] at hm
    cases h24 : lm[24]? with
    | none =>
      simp only [h24, exceptBind_error] at hm
      exact Except.noConfusion hm
    | some rh =>
    simp only [h24, exceptBind_ok] at hm
    cases h7 : lm[7]? with
    | none =>
      simp only [h7, exceptBind_error] at hm
      exact Except.noConfusion hm
    | some ear =>
    simp only [h7, exceptBind_ok, Except.ok.injEq, Option.some.injEq] at hm
    exact ⟨lm, ls, rs, lh, rh, ear, rfl, h11, h12, h23, h24, h7,
      hm.symm.trans (by simp only [metricsOf])⟩

/-- C1 counterexample: on the snapshot `c1Lm` the computed shoulder angle
(≈ 1.72°), pelvic angle (0°) and forward-head offset (0) all satisfy the
claim's hypotheses and the issue list is empty, yet the score is not 100 —
the 5°-per-degree deduction applies below the 3° issue threshold as well. -/
theorem c1_counterexample :
    analyzePosture ⟨some c1Lm⟩ = Except.ok (some c1Metrics) ∧
    |c1Metrics.shoulderAngle| ≤ 3 ∧ |c1Metrics.pelvicAngle| ≤ 3 ∧
    c1Metrics.roundShoulderIndex ≤ 1 / 20 ∧
    c1Metrics.issues = [] ∧ c1Metrics.score ≠ 100 := by
  have hang := c1_angle_bounds
  have hsapos : 0 < Real.arctan (3 / 100) * (180 / Real.pi) := lt_trans (by norm_num) hang.1
  refine ⟨c1_eval, ?_, ?_, ?_, rfl, ?_⟩
  · show |Real.arctan (3 / 100) * (180 / Real.pi)| ≤ 3
    rw [abs_of_pos hsapos]
    linarith [hang.2]
  · show |(0 : ℝ)| ≤ 3
    norm_num
  · show (0 : ℝ) ≤ 1 / 20
    norm_num
  · show jsRound (100 - Real.arctan (3 / 100) * (180 / Real.pi) * 5) ≠ 100
    unfold jsRound
    have hlt : ⌊(100 : ℝ) - Real.arctan (3 / 100) * (180 / Real.pi) * 5 + 1 / 2⌋ < 100 := by
      rw [Int.floor_lt]
      push_cast
      linarith [hang.1]
    exact ne_of_lt hlt

/-- C1 (amended): under the claim's hypotheses the issue list is indeed
empty, but the score is `round(100 − 5·|shoulderAngle| − 5·|pelvicAngle|)`,
which equals 100 exactly when the two deductions total at most one half. -/
theorem c1_amended (r : Results) (m : PostureMetrics)
    (hm : analyzePosture r = Except.ok (some m))
    (hs : |m.shoulderAngle| ≤ 3) (hp : |m.pelvicAngle| ≤ 3)
    (hn : m.roundShoulderIndex ≤ 1 / 20) :
    m.issues = [] ∧
    m.score = jsRound (100 - |m.shoulderAngle| * 5 - |m.pelvicAngle| * 5) ∧
    (m.score = 100 ↔ |m.shoulderAngle| * 5 + |m.pelvicAngle| * 5 ≤ 1 / 2) := by
  obtain ⟨lm, ls, rs, lh, rh, ear, hr, h11, h12, h23, h24, h7, hme⟩ :=
    analyzePosture_inv r m hm
  subst hme
  simp only [metricsOf] at hs hp hn ⊢
  rw [if_neg (not_lt.mpr hs), if_neg (not_lt.mpr hp),
      if_neg (by linarith : ¬ ((1:ℝ)/10 < ear.x - ls.x)),
      if_neg (not_lt.mpr hn), sub_zero]
  have habs1 := abs_nonneg (atan2 (ls.y - rs.y) (ls.x - rs.x) * (180 / Real.pi))
  have habs2 := abs_nonneg (atan2 (lh.y - rh.y) (lh.x - rh.x) * (180 / Real.pi))
  rw [min_eq_right (by linarith), max_eq_right (by linarith)]
  refine ⟨rfl, rfl, ?_⟩
  unfold jsRound
  rw [Int.floor_eq_iff]
  push_cast
  constructor
  · intro hh
    linarith [hh.1]
  · intro hh
    constructor
    · linarith
    · linarith

/-- Well-aligned snapshot: level shoulders and hips, ear slightly behind
the shoulder. -/
noncomputable def perfectLm : List Landmark :=
  (((((List.replicate 25 fillLm).set 7 ⟨11/20, 3/10, 0, some 1⟩).set 11
      ⟨3/5, 1/2, 0, some 1⟩).set 12 ⟨2/5, 1/2, 0, some 1⟩).set 23
      ⟨3/5, 4/5, 0, some 1⟩).set 24 ⟨2/5, 4/5, 0, some 1⟩

/-- Metrics on the well-aligned snapshot. -/
noncomputable def perfectMetrics : PostureMetrics :=
  { shoulderAngle := 0, pelvicAngle := 0, roundShoulderIndex := -(1/20),
    score := 100, issues := [] }

/-- Evaluation of the metric engine on the well-aligned snapshot. -/
theorem perfect_eval :
    analyzePosture ⟨some perfectLm⟩ = Except.ok (some perfectMetrics) := by
  have h := analyzePosture_eval perfectLm ⟨3/5, 1/2, 0, some 1⟩ ⟨2/5, 1/2, 0, some 1⟩
      ⟨3/5, 4/5, 0, some 1⟩ ⟨2/5, 4/5, 0, some 1⟩ ⟨11/20, 3/10, 0, some 1⟩ rfl rfl rfl rfl rfl
  rw [h]
  have hz : atan2 ((1 : ℝ)/2 - 1/2) ((3 : ℝ)/5 - 2/5) = 0 := by
    rw [show ((1 : ℝ)/2 - 1/2) = 0 by norm_num,
        show ((3 : ℝ)/5 - 2/5) = 1/5 by norm_num, atan2_pos_x (by norm_num)]
    norm_num
  have hz2 : atan2 ((4 : ℝ)/5 - 4/5) ((3 : ℝ)/5 - 2/5) = 0 := by
    rw [show ((4 : ℝ)/5 - 4/5) = 0 by norm_num,
        show ((3 : ℝ)/5 - 2/5) = 1/5 by norm_num, atan2_pos_x (by norm_num)]
    norm_num
  simp only [hz, hz2]
  norm_num [perfectMetrics, jsRound]

/-- Witness for the amended C1 theorem at the well-aligned snapshot. -/
theorem c1_amended_witness :
    analyzePosture ⟨some perfectLm⟩ = Except.ok (some perfectMetrics) ∧
    (perfectMetrics.issues = [] ∧
     perfectMetrics.score =
       jsRound (100 - |perfectMetrics.shoulderAngle| * 5 - |perfectMetrics.pelvicAngle| * 5) ∧
     (perfectMetrics.score = 100 ↔
       |perfectMetrics.shoulderAngle| * 5 + |perfectMetrics.pelvicAngle| * 5 ≤ 1 / 2)) :=
  ⟨perfect_eval,
   c1_amended ⟨some perfectLm⟩ perfectMetrics perfect_eval
     (by norm_num [perfectMetrics]) (by norm_num [perfectMetrics])
     (by norm_num [perfectMetrics])⟩

/-- Source kind of the capture session (`method` in the component). -/
inductive Method
  | camera
  | upload
deriving DecidableEq

/-- The component state touched by a capture command. -/
structure CaptureState where
  method : Option Method
  countdown : Option ℕ
  capturedMetrics : Option PostureMetrics
  isPaused : Bool

/-- `handleCapture` from `PostureDetection.tsx`: with no detector result the
command does nothing; otherwise the metric engine runs (and any fault it
raises propagates); a `null` metrics result is ignored; a real result is
stored, the 3-second countdown starts, and upload playback pauses. -/
noncomputable def handleCapture (results : Option Results) (s : CaptureState) :
    Except JsError CaptureState :=
  match results with
  | none => Except.ok s
  | some r =>
    match analyzePosture r with
    | Except.error e => Except.error e
    | Except.ok none => Except.ok s
    | Except.ok (some m) =>
      Except.ok { s with
        capturedMetrics := some m
        countdown := some 3
        isPaused := if s.method = some Method.upload then true else s.isPaused }

/-- A concrete session state in camera mode. -/
noncomputable def s0 : CaptureState :=
  { method := some Method.camera, countdown := none,
    capturedMetrics := none, isPaused := false }

/-- C2 counterexample: an empty (but present) landmark list is truthy in
JavaScript, so the `!results.poseLandmarks` guard does not fire and the
engine faults reading `lm[11].y` instead of returning `null`; the capture
handler propagates the fault instead of ignoring the command. -/
theorem c2_counterexample :
    analyzePosture ⟨some []⟩ = Except.error JsError.typeError ∧
    handleCapture (some ⟨some []⟩) s0 = Except.error JsError.typeError := by
  constructor
  · rfl
  · rfl

/-- C2 (amended): when the landmark list is absent the engine returns
`null` and a capture command is silently ignored with no state change;
when the list is present but empty the engine faults with a `TypeError`
(it does not return `null`). -/
theorem c2_amended :
    analyzePosture ⟨none⟩ = Except.ok none ∧
    (∀ s : CaptureState, handleCapture none s = Except.ok s) ∧
    (∀ (s : CaptureState) (r : Results), r.poseLandmarks = none →
      handleCapture (some r) s = Except.ok s) ∧
    analyzePosture ⟨some []⟩ = Except.error JsError.typeError := by
  refine ⟨rfl, fun s => rfl, ?_, rfl⟩
  intro s r hr
  have ha : analyzePosture r = Except.ok none := by
    unfold analyzePosture
    rw [hr]
  simp only [handleCapture, ha]

/-- Witness for the amended C2 theorem at a concrete state. -/
theorem c2_amended_witness :
    handleCapture (some ⟨none⟩) s0 = Except.ok s0 :=
  c2_amended.2.2.1 s0 ⟨none⟩ rfl

/-- State of the single-flight detection scheduler (the part_004 variant of
`usePoseDetection` with the `isProcessing` flag): whether the flag is held,
whether the 600 ms recovery timer is pending, how many `pose.send` calls
are still unsettled, and the last published snapshot. -/
structure SchedState where
  isProcessing : Bool
  timerActive : Bool
  outstanding : ℕ
  published : Option Results

/-- Events driving the scheduler: a `detect` call from the refresh loop, a
detector settlement delivering results, the ≈600 ms recovery timer firing,
and a rejection of the `send` promise. -/
inductive SchedEvent
  | detectCall
  | settle (r : Results)
  | timeoutFire
  | sendError

/-- Initial scheduler state. -/
def schedInit : SchedState :=
  { isProcessing := false, timerActive := false, outstanding := 0, published := none }

/-- One scheduler step.  `detectCall` is dropped while the flag is held,
otherwise it sets the flag, arms the recovery timer and starts a `send`.
`settle` clears the timer, publishes only if the flag is still held, and
clears the flag.  `timeoutFire` (only meaningful while the timer is armed)
force-clears the flag without cancelling the underlying call.  `sendError`
clears the flag and timer.  Guards that cannot occur (settling with nothing
outstanding, a fired timer that is not armed) leave the state unchanged. -/
def schedStep (s : SchedState) : SchedEvent → SchedState
  | SchedEvent.detectCall =>
    if s.isProcessing then s
    else { s with isProcessing := true, timerActive := true,
                  outstanding := s.outstanding + 1 }
  | SchedEvent.settle r =>
    if s.outstanding = 0 then s
    else { isProcessing := false, timerActive := false,
           outstanding := s.outstanding - 1,
           published := if s.isProcessing then some r else s.published }
  | SchedEvent.timeoutFire =>
    if s.timerActive then { s with isProcessing := false, timerActive := false }
    else s
  | SchedEvent.sendError =>
    if s.outstanding = 0 then s
    else { s with isProcessing := false, timerActive := false,
                  outstanding := s.outstanding - 1 }

/-- Run the scheduler over a list of events. -/
def schedRun (s : SchedState) : List SchedEvent → SchedState
  | [] => s
  | e :: es => schedRun (schedStep s e) es

/-- The single-flight invariant that holds as long as no recovery timeout
fires: at most one `send` outstanding, and none while the flag is clear. -/
def SchedInv (s : SchedState) : Prop :=
  s.outstanding ≤ 1 ∧ (s.isProcessing = false → s.outstanding = 0)

/-- Any non-timeout step preserves the single-flight invariant. -/
theorem schedStep_inv (s : SchedState) (e : SchedEvent)
    (hinv : SchedInv s) (he : e ≠ SchedEvent.timeoutFire) :
    SchedInv (schedStep s e) := by
  obtain ⟨h1, h2⟩ := hinv
  cases e with
  | detectCall =>
    simp only [schedStep, SchedInv]
    by_cases hp : s.isProcessing = true
    · simp only [if_pos hp]
      exact ⟨h1, h2⟩
    · simp only [if_neg hp]
      have h0 : s.outstanding = 0 := h2 (by revert hp; cases s.isProcessing <;> simp)
      refine ⟨?_, fun h => ?_⟩
      · show s.outstanding + 1 ≤ 1
        omega
      · exact absurd h (by simp)
  | settle r =>
    simp only [schedStep, SchedInv]
    by_cases ho : s.outstanding = 0
    · simp only [if_pos ho]
      exact ⟨h1, h2⟩
    · simp only [if_neg ho]
      refine ⟨?_, fun h => ?_⟩
      · show s.outstanding - 1 ≤ 1
        omega
      · show s.outstanding - 1 = 0
        omega
  | timeoutFire => exact absurd rfl he
  | sendError =>
    simp only [schedStep, SchedInv]
    by_cases ho : s.outstanding = 0
    · simp only [if_pos ho]
      exact ⟨h1, h2⟩
    · simp only [if_neg ho]
      refine ⟨?_, fun h => ?_⟩
      · show s.outstanding - 1 ≤ 1
        omega
      · show s.outstanding - 1 = 0
        omega

/-- The invariant holds after any timeout-free trace from a state
satisfying it. -/
theorem schedRun_inv (tr : List SchedEvent) :
    ∀ s : SchedState, SchedInv s → SchedEvent.timeoutFire ∉ tr →
      SchedInv (schedRun s tr) := by
  induction tr with
  | nil => exact fun s hs _ => hs
  | cons e es ih =>
    intro s hs htr
    have hne : e ≠ SchedEvent.timeoutFire := fun h => htr (h ▸ List.mem_cons_self e es)
    have hes : SchedEvent.timeoutFire ∉ es := fun h => htr (List.mem_cons_of_mem e h)
    exact ih (schedStep s e) (schedStep_inv s e hs hne) hes

/-- C3 counterexample: after a `detect` is accepted and its ≈600 ms
recovery timer fires, a further `detect` is accepted while the first
`send` is still unsettled — two detector invocations are then
outstanding at once, and the later call was not dropped. -/
theorem c3_counterexample :
    (schedRun schedInit
      [SchedEvent.detectCall, SchedEvent.timeoutFire, SchedEvent.detectCall]).outstanding = 2 ∧
    (schedStep (schedRun schedInit [SchedEvent.detectCall, SchedEvent.timeoutFire])
      SchedEvent.detectCall).isProcessing = true :=
  ⟨rfl, rfl⟩

/-- C3 (amended): a `detect` issued while the single-flight flag is held is
dropped with no effect, and along any trace in which the recovery timeout
never fires at most one detector invocation is ever outstanding; after a
timeout fires, a second concurrent invocation can occur. -/
theorem c3_amended :
    (∀ s : SchedState, s.isProcessing = true → schedStep s SchedEvent.detectCall = s) ∧
    (∀ tr : List SchedEvent, SchedEvent.timeoutFire ∉ tr →
      (schedRun schedInit tr).outstanding ≤ 1) := by
  constructor
  · intro s hp
    simp only [schedStep, if_pos hp]
  · intro tr htr
    exact (schedRun_inv tr schedInit ⟨by simp [schedInit], fun _ => rfl⟩ htr).1

/-- Witness for the amended C3 theorem: a concrete dropped call and a
concrete timeout-free trace. -/
theorem c3_amended_witness :
    schedStep ⟨true, true, 1, none⟩ SchedEvent.detectCall = ⟨true, true, 1, none⟩ ∧
    (schedRun schedInit
      [SchedEvent.detectCall, SchedEvent.settle ⟨none⟩, SchedEvent.detectCall]).outstanding ≤ 1 :=
  ⟨c3_amended.1 ⟨true, true, 1, none⟩ rfl,
   c3_amended.2 [SchedEvent.detectCall, SchedEvent.settle ⟨none⟩, SchedEvent.detectCall]
     (by simp)⟩

/-- C4 counterexample: after the recovery timer force-clears the flag, a
subsequent `detect` re-sets it; the stuck call's late result then finds
the flag held and `onResults` (which cannot tell which call a result
belongs to) publishes the stale result as the current snapshot, instead
of ignoring it. -/
theorem c4_counterexample :
    (schedRun schedInit [SchedEvent.detectCall, SchedEvent.timeoutFire]).isProcessing = false ∧
    (schedRun schedInit
      [SchedEvent.detectCall, SchedEvent.timeoutFire, SchedEvent.detectCall,
        SchedEvent.settle ⟨none⟩]).published = some ⟨none⟩ :=
  ⟨rfl, rfl⟩

/-- C4 (amended): when the recovery timer of an accepted request fires,
the single-flight flag is force-cleared and the next `detect` is accepted
again (starting a new `send`, so the scheduler is never blocked forever);
a detector result arriving while the flag is still clear is not published
— but once a subsequent `detect` has re-set the flag, a late result that
then arrives is published as the current snapshot. -/
theorem c4_amended (s s2 s3 : SchedState) (r r2 : Results)
    (ht : s.timerActive = true) (hp : s2.isProcessing = false)
    (hq : s3.isProcessing = true) (ho : s3.outstanding ≠ 0) :
    (schedStep s SchedEvent.timeoutFire).isProcessing = false ∧
    (schedStep (schedStep s SchedEvent.timeoutFire) SchedEvent.detectCall).isProcessing = true ∧
    (schedStep (schedStep s SchedEvent.timeoutFire) SchedEvent.detectCall).outstanding =
      s.outstanding + 1 ∧
    (schedStep s2 (SchedEvent.settle r)).published = s2.published ∧
    (schedStep s3 (SchedEvent.settle r2)).published = some r2 := by
  refine ⟨by simp [schedStep, ht], by simp [schedStep, ht], by simp [schedStep, ht], ?_, ?_⟩
  · by_cases hz : s2.outstanding = 0
    · simp [schedStep, hz]
    · simp [schedStep, hz, hp]
  · simp [schedStep, ho, hq]

/-- Witness for the amended C4 theorem: a concrete stuck state, a concrete
idle state receiving a late result, and the concrete post-recovery state
(flag re-held, two calls outstanding) receiving the stale result. -/
theorem c4_amended_witness :
    (schedStep ⟨true, true, 1, none⟩ SchedEvent.timeoutFire).isProcessing = false ∧
    (schedStep (schedStep ⟨true, true, 1, none⟩ SchedEvent.timeoutFire)
      SchedEvent.detectCall).isProcessing = true ∧
    (schedStep (schedStep ⟨true, true, 1, none⟩ SchedEvent.timeoutFire)
      SchedEvent.detectCall).outstanding = 2 ∧
    (schedStep ⟨false, false, 1, none⟩ (SchedEvent.settle ⟨none⟩)).published = none ∧
    (schedStep ⟨true, true, 2, none⟩ (SchedEvent.settle ⟨none⟩)).published = some ⟨none⟩ :=
  c4_amended ⟨true, true, 1, none⟩ ⟨false, false, 1, none⟩ ⟨true, true, 2, none⟩ ⟨none⟩ ⟨none⟩
    rfl rfl rfl (by simp)

/-- Camera facing mode. -/
inductive Facing
  | user
  | environment
deriving DecidableEq

/-- Foot-region landmark indices checked against the bottom edge. -/
def feetIdx : List ℕ := [31, 32, 27, 28]

/-- Left-side landmark indices checked against the left edge. -/
def leftIdx : List ℕ := [11, 13, 15, 23, 25]

/-- Right-side landmark indices checked against the right edge. -/
def rightIdx : List ℕ := [12, 14, 16, 24, 26]

/-- `CRITICAL_LANDMARKS` from the component. -/
def criticalIdx : List ℕ := [0, 15, 16, 23, 24, 27, 28, 31, 32]

/-- JavaScript `list.some(i => lm[i] && p(lm[i]))` over an index list. -/
noncomputable def anyAt (lm : List Landmark) (idxs : List ℕ) (p : Landmark → Bool) : Bool :=
  idxs.any fun i => ((lm[i]?).map p).getD false

/-- `head && head.y < 0.05`. -/
noncomputable def headLow (lm : List Landmark) : Bool :=
  ((lm[0]?).map fun l => decide (l.y < 1 / 20)).getD false

/-- `feet.some(f => f && f.y > 0.95)`. -/
noncomputable def feetHigh (lm : List Landmark) : Bool :=
  anyAt lm feetIdx fun l => decide (19 / 20 < l.y)

/-- `leftSide.some(s => s && s.x < 0.05)`. -/
noncomputable def leftOut (lm : List Landmark) : Bool :=
  anyAt lm leftIdx fun l => decide (l.x < 1 / 20)

/-- `rightSide.some(s => s && s.x > 0.95)`. -/
noncomputable def rightOut (lm : List Landmark) : Bool :=
  anyAt lm rightIdx fun l => decide (19 / 20 < l.x)

/-- `CRITICAL_LANDMARKS.some(idx => !l || l.visibility === undefined ||
l.visibility < 0.55)`. -/
noncomputable def lowVisibility (lm : List Landmark) : Bool :=
  criticalIdx.any fun i =>
    match lm[i]? with
    | none => true
    | some l =>
      match l.visibility with
      | none => true
      | some v => decide (v < 11 / 20)

/-- The frame-quality evaluation of `PostureDetection.tsx` (the component
the application imports): a first-match `else if` chain over the boundary
checks, a counter incremented only in the branch taken, and the
multi-violation override applied when the counter exceeds one. -/
noncomputable def frameAlertMain (lm : List Landmark) (fm : Facing) : Option String :=
  let step : Option String × ℕ :=
    if headLow lm then (some ("请向下移动或后退"), 1)
    else if feetHigh lm then (some ("请向上移动或后退"), 1)
    else if leftOut lm then
      (some (if fm = Facing.user then ("请向左移动") else ("请向右移动")), 1)
    else if rightOut lm then
      (some (if fm = Facing.user then ("请向右移动") else ("请向左移动")), 1)
    else if lowVisibility lm then (some ("请向后退，确保全身入镜"), 1)
    else (none, 0)
  if 1 < step.2 then some ("请向后退，让全身完全入镜") else step.1

/-- The direction strings pushed by the part_002 variant, whose four
boundary checks are independent `if`s. -/
noncomputable def boundaryDirs (lm : List Landmark) (fm : Facing) : List String :=
  (if headLow lm then [("向下移动")] else []) ++
  (if feetHigh lm then [("向上移动")] else []) ++
  (if leftOut lm then
    [if fm = Facing.user then ("向左移动") else ("向右移动")] else []) ++
  (if rightOut lm then
    [if fm = Facing.user then ("向右移动") else ("向左移动")] else [])

/-- The frame-quality evaluation of the part_002 variant: independent
boundary counting with a genuine multi-violation override. -/
noncomputable def frameAlertVariant (lm : List Landmark) (fm : Facing) : Option String :=
  let dirs := boundaryDirs lm fm
  if 1 < dirs.length then some ("请向后退，确保全身入镜")
  else
    match dirs with
    | d :: _ => some (("请") ++ d)
    | [] => if lowVisibility lm then some ("请稍微退后，确保全身完整") else none

/-- C5 snapshot: head above the top edge (y = 0.02) and a foot landmark
below the bottom edge (y = 0.96), everything else mid-frame and fully
visible — two boundary violations at once. -/
noncomputable def c5Lm : List Landmark :=
  ((List.replicate 33 fillLm).set 0 ⟨1/2, 1/50, 0, some 1⟩).set 31 ⟨1/2, 24/25, 0, some 1⟩

/-- Boundary-check values on the C5 snapshot: the head and foot checks
both fire, the side checks do not. -/
theorem c5_checks :
    headLow c5Lm = true ∧ feetHigh c5Lm = true ∧
    leftOut c5Lm = false ∧ rightOut c5Lm = false := by
  have h0 : c5Lm[0]? = some ⟨1/2, 1/50, 0, some 1⟩ := rfl
  have h31 : c5Lm[31]? = some ⟨1/2, 24/25, 0, some 1⟩ := rfl
  have h32 : c5Lm[32]? = some fillLm := rfl
  have h27 : c5Lm[27]? = some fillLm := rfl
  have h28 : c5Lm[28]? = some fillLm := rfl
  have h11 : c5Lm[11]? = some fillLm := rfl
  have h13 : c5Lm[13]? = some fillLm := rfl
  have h15 : c5Lm[15]? = some fillLm := rfl
  have h23 : c5Lm[23]? = some fillLm := rfl
  have h25 : c5Lm[25]? = some fillLm := rfl
  have h12 : c5Lm[12]? = some fillLm := rfl
  have h14 : c5Lm[14]? = some fillLm := rfl
  have h16 : c5Lm[16]? = some fillLm := rfl
  have h24 : c5Lm[24]? = some fillLm := rfl
  have h26 : c5Lm[26]? = some fillLm := rfl
  refine ⟨?_, ?_, ?_, ?_⟩
  · simp only [headLow, h0, Option.map_some', Option.getD_some, decide_eq_true_eq]
    norm_num
  · simp only [feetHigh, anyAt, feetIdx, List.any_cons, List.any_nil, h31, h32, h27, h28,
      fillLm, Option.map_some', Option.getD_some, Bool.or_eq_true, decide_eq_true_eq]
    norm_num
  · simp only [leftOut, anyAt, leftIdx, List.any_cons, List.any_nil, h11, h13, h15, h23, h25,
      fillLm, Option.map_some', Option.getD_some, Bool.or_eq_false_iff, decide_eq_false_iff_not]
    norm_num
  · simp only [rightOut, anyAt, rightIdx, List.any_cons, List.any_nil, h12, h14, h16, h24, h26,
      fillLm, Option.map_some', Option.getD_some, Bool.or_eq_false_iff, decide_eq_false_iff_not]
    norm_num

/-- C5 counterexample: on a snapshot where the head-too-high and
foot-too-low violations hold simultaneously, the main component emits the
first directional message of its `else if` chain, not the combined
"step back, fit your whole body in frame" override. -/
theorem c5_counterexample :
    headLow c5Lm = true ∧ feetHigh c5Lm = true ∧
    frameAlertMain c5Lm Facing.user = some ("请向下移动或后退") ∧
    frameAlertMain c5Lm Facing.user ≠ some ("请向后退，让全身完全入镜") := by
  obtain ⟨hh, hf, _, _⟩ := c5_checks
  have hmain : frameAlertMain c5Lm Facing.user = some ("请向下移动或后退") := by
    simp [frameAlertMain, hh]
  refine ⟨hh, hf, hmain, ?_⟩
  rw [hmain]
  simp

/-- C5 (amended): in the main component the boundary checks are a
first-match chain, so at most one violation is counted and the combined
override message is never emitted; the part_002 variant counts the four
boundary checks independently and, whenever more than one fires, emits
the single combined "step back" alert overriding the individual
directional messages. -/
theorem c5_amended (lm : List Landmark) (fm : Facing) :
    frameAlertMain lm fm ≠ some ("请向后退，让全身完全入镜") ∧
    (1 < (boundaryDirs lm fm).length →
      frameAlertVariant lm fm = some ("请向后退，确保全身入镜")) := by
  constructor
  · unfold frameAlertMain
    split_ifs <;> simp
  · intro h
    unfold frameAlertVariant
    simp only [if_pos h]

/-- Witness for the amended C5 theorem: the two-violation snapshot
produces two direction entries, and the variant then emits the combined
alert while the main component never emits its override. -/
theorem c5_amended_witness :
    1 < (boundaryDirs c5Lm Facing.user).length ∧
    frameAlertMain c5Lm Facing.user ≠ some ("请向后退，让全身完全入镜") ∧
    frameAlertVariant c5Lm Facing.user = some ("请向后退，确保全身入镜") := by
  obtain ⟨hh, hf, hl, hr⟩ := c5_checks
  have hlen : 1 < (boundaryDirs c5Lm Facing.user).length := by
    simp [boundaryDirs, hh, hf, hl, hr]
  exact ⟨hlen, (c5_amended c5Lm Facing.user).1, (c5_amended c5Lm Facing.user).2 hlen⟩

/-- Commands sent to the speech-synthesis sink. -/
inductive SpeechCmd
  | cancel
  | speak (msg : String)
deriving DecidableEq

/-- One evaluation tick of the monitor: the alert it computed (if any) and
the value of `Date.now()` in milliseconds. -/
structure VoiceTick where
  alert : Option String
  now : ℤ

/-- The 10-second voice throttle of `PostureDetection.tsx`: starting from
the last dispatch time `last` (`lastVoiceRef`), process the ticks in
order; a tick with a non-null alert whose time is more than 10000 ms past
the last dispatch cancels any current speech, speaks the alert, and
resets the reference.  Returns the dispatches as (time, commands) pairs. -/
def voiceRun (last : ℤ) : List VoiceTick → List (ℤ × List SpeechCmd)
  | [] => []
  | t :: ts =>
    match t.alert with
    | some m =>
      if 10000 < t.now - last then
        (t.now, [SpeechCmd.cancel, SpeechCmd.speak m]) :: voiceRun t.now ts
      else voiceRun last ts
    | none => voiceRun last ts

/-- All dispatches lie strictly more than 10 s after the reference time,
and each one cancels current speech before speaking. -/
theorem voiceRun_spec (ticks : List VoiceTick) :
    ∀ last : ℤ,
      List.Pairwise (fun a b : ℤ × List SpeechCmd => 10000 < b.1 - a.1)
        (voiceRun last ticks) ∧
      (voiceRun last ticks).Forall
        (fun d => 10000 < d.1 - last ∧ ∃ m, d.2 = [SpeechCmd.cancel, SpeechCmd.speak m]) := by
  induction ticks with
  | nil => exact fun last => ⟨List.Pairwise.nil, trivial⟩
  | cons t ts ih =>
    intro last
    cases ha : t.alert with
    | none =>
      simp only [voiceRun, ha]
      exact ih last
    | some m =>
      by_cases hd : 10000 < t.now - last
      · simp only [voiceRun, ha, if_pos hd]
        obtain ⟨hpw, hfa⟩ := ih t.now
        constructor
        · refine List.Pairwise.cons ?_ hpw
          intro b hb
          have hb2 := (List.forall_iff_forall_mem.mp hfa) b hb
          exact hb2.1
        · refine List.forall_cons _ _ _ |>.mpr ⟨⟨hd, m, rfl⟩, ?_⟩
          refine List.forall_iff_forall_mem.mpr ?_
          intro d hdm
          have hd2 := (List.forall_iff_forall_mem.mp hfa) d hdm
          exact ⟨by linarith [hd2.1], hd2.2⟩
      · simp only [voiceRun, ha, if_neg hd]
        exact ih last

/-- C6: across any sequence of evaluation ticks, dispatched voice alerts
are pairwise separated by more than 10000 ms (hence at most one dispatch
in any 10-second window), and every dispatch first cancels any
currently-playing speech before speaking the new message. -/
theorem c6_voice_throttle (last : ℤ) (ticks : List VoiceTick) :
    List.Pairwise (fun a b : ℤ × List SpeechCmd => 10000 < b.1 - a.1)
      (voiceRun last ticks) ∧
    (voiceRun last ticks).Forall
      (fun d => ∃ m, d.2 = [SpeechCmd.cancel, SpeechCmd.speak m]) := by
  obtain ⟨hpw, hfa⟩ := voiceRun_spec ticks last
  refine ⟨hpw, ?_⟩
  refine List.forall_iff_forall_mem.mpr ?_
  intro d hdm
  exact ((List.forall_iff_forall_mem.mp hfa) d hdm).2

/-- Scenario-B snapshot: left shoulder landmark (index 11) at
(0.40, 0.55), right shoulder landmark (index 12) at (0.60, 0.50), level
hips, ear directly above the left shoulder. -/
noncomputable def scBLm : List Landmark :=
  (((((List.replicate 25 fillLm).set 7 ⟨2/5, 3/10, 0, some 1⟩).set 11
      ⟨2/5, 11/20, 0, some 1⟩).set 12 ⟨3/5, 1/2, 0, some 1⟩).set 23
      ⟨3/5, 4/5, 0, some 1⟩).set 24 ⟨2/5, 4/5, 0, some 1⟩

/-- Metrics the engine computes on the scenario-B snapshot. -/
noncomputable def scBMetrics : PostureMetrics :=
  { shoulderAngle := (Real.pi - Real.arctan (1/4)) * (180 / Real.pi)
    pelvicAngle := 0
    roundShoulderIndex := 0
    score := 0
    issues := [("左肩偏高")] }

/-- The scenario-B shoulder angle lies strictly between 165° and 167°. -/
theorem c7_sa_bounds :
    165 < (Real.pi - Real.arctan (1/4)) * (180 / Real.pi) ∧
      (Real.pi - Real.arctan (1/4)) * (180 / Real.pi) < 167 := by
  have hb := arctan_quarter_bounds
  have hpi3 := Real.pi_gt_three
  have hpid2 := Real.pi_lt_d2
  have hpos := Real.pi_pos
  have hdpos : (0 : ℝ) < 180 / Real.pi := by positivity
  have hexp : (Real.pi - Real.arctan (1/4)) * (180 / Real.pi) =
      180 - Real.arctan (1/4) * (180 / Real.pi) := by
    field_simp
    ring
  have hd1 : (13 : ℝ) < Real.arctan (1/4) * (180 / Real.pi) := by
    have h2 : ((6 : ℝ)/25) * (180 / Real.pi) < Real.arctan (1/4) * (180 / Real.pi) :=
      mul_lt_mul_of_pos_right hb.1 hdpos
    have h3 : (13 : ℝ) < (6/25) * (180 / Real.pi) := by
      rw [show ((6 : ℝ)/25) * (180 / Real.pi) = (216/5) / Real.pi by ring,
          lt_div_iff₀ hpos]
      nlinarith
    linarith
  have hd2 : Real.arctan (1/4) * (180 / Real.pi) < 15 := by
    have h2 : Real.arctan (1/4) * (180 / Real.pi) < ((1 : ℝ)/4) * (180 / Real.pi) :=
      mul_lt_mul_of_pos_right hb.2 hdpos
    have h3 : ((1 : ℝ)/4) * (180 / Real.pi) < 15 := by
      rw [show ((1 : ℝ)/4) * (180 / Real.pi) = 45 / Real.pi by ring,
          div_lt_iff₀ hpos]
      nlinarith
    linarith
  rw [hexp]
  constructor
  · linarith
  · linarith

/-- Evaluation of the metric engine on the scenario-B snapshot. -/
theorem c7_eval : analyzePosture ⟨some scBLm⟩ = Except.ok (some scBMetrics) := by
  have h := analyzePosture_eval scBLm ⟨2/5, 11/20, 0, some 1⟩ ⟨3/5, 1/2, 0, some 1⟩
      ⟨3/5, 4/5, 0, some 1⟩ ⟨2/5, 4/5, 0, some 1⟩ ⟨2/5, 3/10, 0, some 1⟩ rfl rfl rfl rfl rfl
  have hA : atan2 ((11 : ℝ)/20 - 1/2) ((2 : ℝ)/5 - 3/5) = Real.pi - Real.arctan (1/4) := by
    rw [show ((11 : ℝ)/20 - 1/2) = 1/20 by norm_num,
        show ((2 : ℝ)/5 - 3/5) = -(1/5) by norm_num,
        atan2_neg_x_nonneg_y (by norm_num) (by norm_num),
        show ((1 : ℝ)/20) / (-(1/5)) = -(1/4) by norm_num, Real.arctan_neg]
    ring
  have hP : atan2 ((4 : ℝ)/5 - 4/5) ((3 : ℝ)/5 - 2/5) = 0 := by
    rw [show ((4 : ℝ)/5 - 4/5) = 0 by norm_num,
        show ((3 : ℝ)/5 - 2/5) = 1/5 by norm_num, atan2_pos_x (by norm_num)]
    norm_num
  have hnf : ((2 : ℝ)/5 - 2/5) = 0 := by norm_num
  have hsb := c7_sa_bounds
  have hsapos : 0 < (Real.pi - Real.arctan (1/4)) * (180 / Real.pi) := by linarith [hsb.1]
  simp only [hA, hP, hnf, zero_mul, abs_zero] at h
  rw [h]
  rw [abs_of_pos hsapos]
  rw [if_pos (by linarith [hsb.1] :
        (3 : ℝ) < (Real.pi - Real.arctan (1/4)) * (180 / Real.pi)),
      if_pos hsapos,
      if_neg (by norm_num : ¬ ((3 : ℝ) < (0 : ℝ))),
      if_neg (by norm_num : ¬ ((1 : ℝ)/10 < (0 : ℝ))),
      if_neg (by norm_num : ¬ ((1 : ℝ)/20 < (0 : ℝ))), sub_zero, sub_zero]
  rw [min_eq_right (by nlinarith [hsb.1] :
        (100 : ℝ) - (Real.pi - Real.arctan (1/4)) * (180 / Real.pi) * 5 ≤ 100),
      max_eq_left (by nlinarith [hsb.1] :
        (100 : ℝ) - (Real.pi - Real.arctan (1/4)) * (180 / Real.pi) * 5 ≤ 0)]
  simp only [scBMetrics]
  norm_num [jsRound]

/-- C7 counterexample: with the left shoulder landmark at (0.40, 0.55) and
the right at (0.60, 0.50), `atan2` of the right-to-left vector lands in
the second quadrant: the computed angle exceeds 90° (so it is not
≈ −14.04°), and the flagged issue is 左肩偏高 (left shoulder high), not
the negative-angle label. -/
theorem c7_counterexample :
    analyzePosture ⟨some scBLm⟩ = Except.ok (some scBMetrics) ∧
    90 < scBMetrics.shoulderAngle ∧
    scBMetrics.issues = [("左肩偏高")] := by
  refine ⟨c7_eval, ?_, rfl⟩
  show (90 : ℝ) < (Real.pi - Real.arctan (1/4)) * (180 / Real.pi)
  linarith [c7_sa_bounds.1]

/-- C7 (amended): on the scenario-B input the engine computes a shoulder
angle of `(π − arctan(1/4))·180/π` ≈ 165.96° (between 165° and 167°),
flags 左肩偏高 (left shoulder high), and the shoulder term alone deducts
`5·|angle|` ≈ 829.8 points — more than the whole budget — so the score
clamps to 0. -/
theorem c7_amended :
    analyzePosture ⟨some scBLm⟩ = Except.ok (some scBMetrics) ∧
    scBMetrics.shoulderAngle = (Real.pi - Real.arctan (1/4)) * (180 / Real.pi) ∧
    165 < scBMetrics.shoulderAngle ∧ scBMetrics.shoulderAngle < 167 ∧
    scBMetrics.issues = [("左肩偏高")] ∧
    100 < |scBMetrics.shoulderAngle| * 5 ∧
    scBMetrics.score = 0 := by
  have hsb := c7_sa_bounds
  refine ⟨c7_eval, rfl, hsb.1, hsb.2, rfl, ?_, rfl⟩
  show (100 : ℝ) < |(Real.pi - Real.arctan (1/4)) * (180 / Real.pi)| * 5
  rw [abs_of_pos (by linarith [hsb.1])]
  linarith [hsb.1]

/-- The three `getUserMedia` constraint sets tried by `setupCamera`, most
to least specific. -/
inductive CamConstraint
  | facingIdealRes (fm : Facing)
  | facingOnly (fm : Facing)
  | anyCamera
deriving DecidableEq

/-- The ordered constraint list of `setupCamera`: requested facing plus
ideal 1280×720, requested facing only, any camera. -/
def constraintList (fm : Facing) : List CamConstraint :=
  [CamConstraint.facingIdealRes fm, CamConstraint.facingOnly fm, CamConstraint.anyCamera]

/-- The `for … try … break` loop: try each constraint in order against the
device (modelled as an oracle returning `none` when `getUserMedia`
throws); the first success wins. -/
def tryConstraints (attempt : CamConstraint → Option ℕ) :
    List CamConstraint → Option ℕ
  | [] => none
  | c :: cs =>
    match attempt c with
    | some st => some st
    | none => tryConstraints attempt cs

/-- `setupCamera` from `PostureDetection.tsx`: on the first success the
stream is installed and the session state is untouched; if all constraints
fail, a device-unavailable alert is surfaced (`true` in the last
component) and `setMethod(null)` returns the session to source
selection. -/
def setupCamera (attempt : CamConstraint → Option ℕ) (fm : Facing)
    (s : CaptureState) : CaptureState × Option ℕ × Bool :=
  match tryConstraints attempt (constraintList fm) with
  | some st => (s, some st, false)
  | none => ({ s with method := none }, none, true)

/-- C8: camera acquisition tries exactly the three constraint sets in
order, stops at the first success, and surfaces a device-unavailable
error with a return to source selection exactly when all three fail. -/
theorem c8_camera_fallback (attempt : CamConstraint → Option ℕ) (fm : Facing)
    (s : CaptureState) :
    (constraintList fm).length = 3 ∧
    setupCamera attempt fm s =
      (match attempt (CamConstraint.facingIdealRes fm),
             attempt (CamConstraint.facingOnly fm),
             attempt CamConstraint.anyCamera with
       | some st, _, _ => (s, some st, false)
       | none, some st, _ => (s, some st, false)
       | none, none, some st => (s, some st, false)
       | none, none, none => ({ s with method := none }, none, true)) := by
  refine ⟨rfl, ?_⟩
  unfold setupCamera tryConstraints constraintList
  cases h1 : attempt (CamConstraint.facingIdealRes fm) with
  | some st => simp [h1]
  | none =>
    cases h2 : attempt (CamConstraint.facingOnly fm) with
    | some st => simp [tryConstraints, h1, h2]
    | none =>
      cases h3 : attempt CamConstraint.anyCamera with
      | some st => simp [tryConstraints, h1, h2, h3]
      | none => simp [tryConstraints, h1, h2, h3]

/-- Case split for two optional landmarks whose (x, y) projections agree:
both are absent, or both are present with equal x and y. -/
theorem optxy_cases (a b : Option Landmark)
    (h : a.map (fun l => (l.x, l.y)) = b.map (fun l => (l.x, l.y))) :
    (a = none ∧ b = none) ∨
    ∃ la lb, a = some la ∧ b = some lb ∧ la.x = lb.x ∧ la.y = lb.y := by
  cases a <;> cases b <;> simp_all

/-- C9: the engine's output depends only on the (x, y) coordinates of the
landmarks at indices 7, 11, 12, 23 and 24 — two present landmark lists
agreeing there (z and visibility free to differ) yield identical results,
including identical faulting behaviour. -/
theorem c9_noninterference (lmA lmB : List Landmark)
    (h7 : (lmA[7]?).map (fun l => (l.x, l.y)) = (lmB[7]?).map (fun l => (l.x, l.y)))
    (h11 : (lmA[11]?).map (fun l => (l.x, l.y)) = (lmB[11]?).map (fun l => (l.x, l.y)))
    (h12 : (lmA[12]?).map (fun l => (l.x, l.y)) = (lmB[12]?).map (fun l => (l.x, l.y)))
    (h23 : (lmA[23]?).map (fun l => (l.x, l.y)) = (lmB[23]?).map (fun l => (l.x, l.y)))
    (h24 : (lmA[24]?).map (fun l => (l.x, l.y)) = (lmB[24]?).map (fun l => (l.x, l.y))) :
    analyzePosture ⟨some lmA⟩ = analyzePosture ⟨some lmB⟩ := by
  rcases optxy_cases _ _ h11 with ⟨ha11, hb11⟩ | ⟨la11, lb11, ha11, hb11, hx11, hy11⟩
  · simp [analyzePosture, jsGet, ha11, hb11, exceptBind_error]
  rcases optxy_cases _ _ h12 with ⟨ha12, hb12⟩ | ⟨la12, lb12, ha12, hb12, hx12, hy12⟩
  · simp [analyzePosture, jsGet, ha11, hb11, ha12, hb12, exceptBind_ok, exceptBind_error]
  rcases optxy_cases _ _ h23 with ⟨ha23, hb23⟩ | ⟨la23, lb23, ha23, hb23, hx23, hy23⟩
  · simp [analyzePosture, jsGet, ha11, hb11, ha12, hb12, ha23, hb23,
      exceptBind_ok, exceptBind_error]
  rcases optxy_cases _ _ h24 with ⟨ha24, hb24⟩ | ⟨la24, lb24, ha24, hb24, hx24, hy24⟩
  · simp [analyzePosture, jsGet, ha11, hb11, ha12, hb12, ha23, hb23, ha24, hb24,
      exceptBind_ok, exceptBind_error]
  rcases optxy_cases _ _ h7 with ⟨ha7, hb7⟩ | ⟨la7, lb7, ha7, hb7, hx7, hy7⟩
  · simp [analyzePosture, jsGet, ha11, hb11, ha12, hb12, ha23, hb23, ha24, hb24, ha7, hb7,
      exceptBind_ok, exceptBind_error]
  simp only [analyzePosture, jsGet, ha11, hb11, ha12, hb12, ha23, hb23, ha24, hb24, ha7, hb7,
    exceptBind_ok]
  rw [hx11, hy11, hx12, hy12, hx23, hy23, hx24, hy24, hx7]

/-- C9 witness list: the C1 snapshot with a different head landmark, a
different z and a different visibility at shoulder index 11. -/
noncomputable def c9Lm : List Landmark :=
  (c1Lm.set 0 ⟨0, 0, 0, none⟩).set 11 ⟨3/5, 503/1000, 7, some 0⟩

/-- Witness for the C9 theorem: the two concrete lists differ off the key
indices and in z/visibility, yet the engine's results coincide. -/
theorem c9_noninterference_witness :
    analyzePosture ⟨some c1Lm⟩ = analyzePosture ⟨some c9Lm⟩ :=
  c9_noninterference c1Lm c9Lm rfl rfl rfl rfl rfl

/-- C10: a successful non-null analysis always lists issues in the fixed
order shoulder, pelvis, forward-head — each present exactly when its
threshold fires — and hence never more than three. -/
theorem c10_issue_order (r : Results) (m : PostureMetrics)
    (hm : analyzePosture r = Except.ok (some m)) :
    m.issues =
      (if 3 < |m.shoulderAngle| then
        [if 0 < m.shoulderAngle then ("左肩偏高") else ("右肩偏高")] else []) ++
      (if 3 < |m.pelvicAngle| then [("骨盆侧倾")] else []) ++
      (if 1/10 < m.roundShoulderIndex then [("圆肩/头前引")] else []) ∧
    m.issues.length ≤ 3 := by
  obtain ⟨lm, ls, rs, lh, rh, ear, hr, h11, h12, h23, h24, h7, hme⟩ :=
    analyzePosture_inv r m hm
  subst hme
  constructor
  · rfl
  · simp only [metricsOf]
    split_ifs <;> simp

/-- Witness for the C10 theorem at the scenario-B snapshot. -/
theorem c10_issue_order_witness :
    scBMetrics.issues =
      (if 3 < |scBMetrics.shoulderAngle| then
        [if 0 < scBMetrics.shoulderAngle then ("左肩偏高") else ("右肩偏高")] else []) ++
      (if 3 < |scBMetrics.pelvicAngle| then [("骨盆侧倾")] else []) ++
      (if 1/10 < scBMetrics.roundShoulderIndex then [("圆肩/头前引")] else []) ∧
    scBMetrics.issues.length ≤ 3 :=
  c10_issue_order ⟨some scBLm⟩ scBMetrics c7_eval
